import Mathlib

/-!
Verification of the Malaysia electricity-data generator front-end logic.

This file gives a shallow embedding, in Lean 4, of the JavaScript functions of
the repository that decide the claims under review:

* `building_predictor.js` (src/unnamed/part_000): class `BuildingPredictor` —
  the tier ratio tables `cityTypeRatios` and `determineCityType`.
* `static/interface_auto_buildings.js`: class `BuildingPredictorFixed` —
  `defaultRatios`, `malaysiaLocations`, `determineCityType`,
  `getFilteredLocationParams`, `getAllMalaysiaParams`,
  `distributeBuildingsFromPercentages`.
* `static/script.js` / its corrected copy (src/unnamed/part_001):
  `updateEstimation` (observation-count arithmetic), `updateCityOptions`
  (filter + population sort) and `getFormParams` (request validation).

JavaScript numbers are modelled as exact rationals (`ℚ`) or integers (`ℤ`);
`parseInt` / `parseFloat` results are `Option` values (`none` models `NaN`
from an empty or non-numeric field), and JS truthiness of strings is the
test against `""`.  `Math.round x` is `⌊x + 1/2⌋`, `Math.ceil` over exact
division is `Int.ceil` of the rational quotient.
-/

/-- JS `Math.round`: round half toward positive infinity, `⌊x + 1/2⌋`. -/
def jsRound (q : ℚ) : ℤ := ⌊q + 1/2⌋

/-- Stable insertion of `x` into a list sorted by strictly descending key:
`x` is placed before the first element whose key is `≤` its own, as a
compliant stable JS `Array.prototype.sort` with comparator `(a, b) => key b - key a`
would order it. -/
def insertDescBy {α β : Type} [LinearOrder β] (key : α → β) (x : α) : List α → List α
  | [] => [x]
  | y :: ys => if key y ≤ key x then x :: y :: ys else y :: insertDescBy key x ys

/-- Stable sort by descending key, modelling JS `.sort((a, b) => key(b) - key(a))`. -/
def sortDescBy {α β : Type} [LinearOrder β] (key : α → β) : List α → List α
  | [] => []
  | x :: xs => insertDescBy key x (sortDescBy key xs)

/- ### part_000 (`building_predictor.js`): tier ratio tables and city typing -/

/-- `BuildingPredictor.cityTypeRatios['metropolis']` (part_000 lines 56-61). -/
def ctrMetropolis : List (String × ℚ) :=
  [("Residential", 0.68), ("Commercial", 0.15), ("Office", 0.08),
   ("Industrial", 0.03), ("Hospital", 0.001), ("Clinic", 0.008),
   ("School", 0.018), ("Hotel", 0.015), ("Restaurant", 0.030),
   ("Retail", 0.025), ("Warehouse", 0.008), ("Apartment", 0.020)]

/-- `BuildingPredictor.cityTypeRatios['major_city']` (part_000 lines 62-67). -/
def ctrMajorCity : List (String × ℚ) :=
  [("Residential", 0.71), ("Commercial", 0.14), ("Office", 0.06),
   ("Industrial", 0.05), ("Hospital", 0.001), ("Clinic", 0.006),
   ("School", 0.018), ("Hotel", 0.012), ("Restaurant", 0.025),
   ("Retail", 0.022), ("Warehouse", 0.010), ("Apartment", 0.012)]

/-- `BuildingPredictor.cityTypeRatios['medium_city']` (part_000 lines 68-73). -/
def ctrMediumCity : List (String × ℚ) :=
  [("Residential", 0.73), ("Commercial", 0.12), ("Office", 0.04),
   ("Industrial", 0.06), ("Hospital", 0.001), ("Clinic", 0.005),
   ("School", 0.020), ("Hotel", 0.008), ("Restaurant", 0.018),
   ("Retail", 0.020), ("Warehouse", 0.008), ("Factory", 0.015)]

/-- `BuildingPredictor.cityTypeRatios['small_city']` (part_000 lines 74-79). -/
def ctrSmallCity : List (String × ℚ) :=
  [("Residential", 0.75), ("Commercial", 0.10), ("Office", 0.02),
   ("Industrial", 0.08), ("Hospital", 0.0), ("Clinic", 0.003),
   ("School", 0.022), ("Hotel", 0.005), ("Restaurant", 0.012),
   ("Retail", 0.018), ("Warehouse", 0.005)]

/-- `BuildingPredictor.cityTypeRatios['tourist_destination']` (part_000 lines 80-85). -/
def ctrTouristDestination : List (String × ℚ) :=
  [("Residential", 0.65), ("Commercial", 0.15), ("Office", 0.02),
   ("Industrial", 0.02), ("Hospital", 0.0), ("Clinic", 0.003),
   ("School", 0.015), ("Hotel", 0.080), ("Restaurant", 0.120),
   ("Retail", 0.035), ("Warehouse", 0.003)]

/-- `BuildingPredictor.cityTypeRatios` (part_000 lines 55-86): note that this
table has five tiers only; it contains no `industrial_city` entry. -/
def cityTypeRatios : List (String × List (String × ℚ)) :=
  [("metropolis", ctrMetropolis), ("major_city", ctrMajorCity),
   ("medium_city", ctrMediumCity), ("small_city", ctrSmallCity),
   ("tourist_destination", ctrTouristDestination)]

/-- `BuildingPredictor.determineCityType` (part_000 lines 489-494). -/
def determineCityType (population : ℤ) : String :=
  if population > 1000000 then "metropolis"
  else if population > 500000 then "major_city"
  else if population > 200000 then "medium_city"
  else "small_city"

/- ### interface_auto_buildings.js (`BuildingPredictorFixed`) -/

/-- `BuildingPredictorFixed.defaultRatios['metropolis']` (lines 528-533). -/
def drMetropolis : List (String × ℚ) :=
  [("Residential", 0.65), ("Commercial", 0.12), ("Office", 0.08),
   ("Industrial", 0.04), ("Hospital", 0.002), ("Clinic", 0.01),
   ("School", 0.025), ("Hotel", 0.020), ("Restaurant", 0.035),
   ("Retail", 0.055), ("Warehouse", 0.012), ("Apartment", 0.018)]

/-- `BuildingPredictorFixed.defaultRatios['major_city']` (lines 534-539). -/
def drMajorCity : List (String × ℚ) :=
  [("Residential", 0.70), ("Commercial", 0.13), ("Office", 0.06),
   ("Industrial", 0.05), ("Hospital", 0.001), ("Clinic", 0.008),
   ("School", 0.025), ("Hotel", 0.015), ("Restaurant", 0.025),
   ("Retail", 0.045), ("Warehouse", 0.010), ("Apartment", 0.012)]

/-- `BuildingPredictorFixed.defaultRatios['medium_city']` (lines 540-545). -/
def drMediumCity : List (String × ℚ) :=
  [("Residential", 0.72), ("Commercial", 0.11), ("Office", 0.04),
   ("Industrial", 0.06), ("Hospital", 0.001), ("Clinic", 0.006),
   ("School", 0.028), ("Hotel", 0.010), ("Restaurant", 0.018),
   ("Retail", 0.040), ("Warehouse", 0.008), ("Factory", 0.015)]

/-- `BuildingPredictorFixed.defaultRatios['small_city']` (lines 546-551). -/
def drSmallCity : List (String × ℚ) :=
  [("Residential", 0.75), ("Commercial", 0.10), ("Office", 0.02),
   ("Industrial", 0.08), ("Hospital", 0.0), ("Clinic", 0.005),
   ("School", 0.030), ("Hotel", 0.005), ("Restaurant", 0.012),
   ("Retail", 0.035), ("Warehouse", 0.005)]

/-- `BuildingPredictorFixed.defaultRatios['tourist_destination']` (lines 552-557). -/
def drTouristDestination : List (String × ℚ) :=
  [("Residential", 0.60), ("Commercial", 0.15), ("Office", 0.02),
   ("Industrial", 0.02), ("Hospital", 0.0), ("Clinic", 0.005),
   ("School", 0.025), ("Hotel", 0.10), ("Restaurant", 0.12),
   ("Retail", 0.06), ("Warehouse", 0.005)]

/-- `BuildingPredictorFixed.defaultRatios['industrial_city']` (lines 558-563). -/
def drIndustrialCity : List (String × ℚ) :=
  [("Residential", 0.65), ("Commercial", 0.10), ("Office", 0.05),
   ("Industrial", 0.15), ("Hospital", 0.001), ("Clinic", 0.005),
   ("School", 0.020), ("Hotel", 0.008), ("Restaurant", 0.018),
   ("Retail", 0.035), ("Warehouse", 0.040), ("Factory", 0.035)]

/-- `BuildingPredictorFixed.defaultRatios` (lines 527-564): six tiers. -/
def defaultRatios : List (String × List (String × ℚ)) :=
  [("metropolis", drMetropolis), ("major_city", drMajorCity),
   ("medium_city", drMediumCity), ("small_city", drSmallCity),
   ("tourist_destination", drTouristDestination), ("industrial_city", drIndustrialCity)]

/-- One entry of `BuildingPredictorFixed.malaysiaLocations`: city name with
population, region and city type. -/
structure CityInfo where
  name : String
  population : ℤ
  region : String
  ctype : String
deriving DecidableEq, Repr

/-- `BuildingPredictorFixed.malaysiaLocations` (lines 567-586), in object
insertion order. -/
def malaysiaLocationsFixed : List CityInfo :=
  [⟨"Kuala Lumpur", 1800000, "Central", "metropolis"⟩,
   ⟨"George Town", 708000, "Northern", "major_city"⟩,
   ⟨"Ipoh", 657000, "Northern", "major_city"⟩,
   ⟨"Shah Alam", 641000, "Central", "major_city"⟩,
   ⟨"Petaling Jaya", 613000, "Central", "major_city"⟩,
   ⟨"Johor Bahru", 497000, "Southern", "industrial_city"⟩,
   ⟨"Subang Jaya", 469000, "Central", "major_city"⟩,
   ⟨"Klang", 440000, "Central", "medium_city"⟩,
   ⟨"Kota Kinabalu", 452000, "East Malaysia", "major_city"⟩,
   ⟨"Malacca City", 455000, "Southern", "medium_city"⟩,
   ⟨"Alor Setar", 405000, "Northern", "medium_city"⟩,
   ⟨"Seremban", 372000, "Central", "medium_city"⟩,
   ⟨"Kuantan", 366000, "East Coast", "medium_city"⟩,
   ⟨"Langkawi", 65000, "Northern", "tourist_destination"⟩,
   ⟨"Cyberjaya", 65000, "Central", "small_city"⟩,
   ⟨"Putrajaya", 109000, "Central", "small_city"⟩,
   ⟨"Port Klang", 180000, "Central", "industrial_city"⟩,
   ⟨"Pasir Gudang", 200000, "Southern", "industrial_city"⟩]

/-- `BuildingPredictorFixed.determineCityType` (lines 1069-1075).  The source
has both a `population > 50000` branch and a final fallback, each returning
`'small_city'`; the embedding keeps both branches. -/
def determineCityTypeFixed (population : ℤ) : String :=
  if population > 1000000 then "metropolis"
  else if population > 500000 then "major_city"
  else if population > 200000 then "medium_city"
  else if population > 50000 then "small_city"
  else "small_city"

/-- The filter predicate of `getFilteredLocationParams` (lines 1021-1026):
a city is kept when the region filter, the city filter and the population
band all pass.  `region`/`city` are DOM select values, with `""` falsy and
`"all"` meaning no constraint; `popMax = none` models
`parseInt(...) || Infinity`, `popMin` models `parseInt(...) || 0`. -/
def cityMatches (region city : String) (popMin : ℤ) (popMax : Option ℤ) (c : CityInfo) : Bool :=
  (region == "" || region == "all" || c.region == region) &&
  (city == "" || city == "all" || c.name == city) &&
  decide (popMin ≤ c.population) &&
  (match popMax with
   | none => true
   | some m => decide (c.population ≤ m))

/-- Result shape shared by `getFilteredLocationParams` / `getAllMalaysiaParams`
(the `mode`, `cities` and `confidence` fields of the returned object). -/
structure LocationParams where
  mode : String
  cities : List CityInfo
  confidence : ℤ
deriving DecidableEq, Repr

/-- `BuildingPredictorFixed.getAllMalaysiaParams` (lines 1050-1064). -/
def getAllMalaysiaParams : LocationParams :=
  ⟨"all", malaysiaLocationsFixed, 95⟩

/-- `BuildingPredictorFixed.getFilteredLocationParams` (lines 1013-1045).
The `state` select is read by the source but never used in the filter; it is
kept as an (unused) argument for fidelity.  When no city matches, the source
returns `getAllMalaysiaParams()`. -/
def getFilteredLocationParams (region state city : String) (popMin : ℤ) (popMax : Option ℤ) :
    LocationParams :=
  let filteredCities := malaysiaLocationsFixed.filter (cityMatches region city popMin popMax)
  if filteredCities.length = 0 then getAllMalaysiaParams
  else ⟨"filtered", filteredCities, 90⟩

/-- The assignment loop of `distributeBuildingsFromPercentages` (lines
1152-1164) on the already-sorted list: every class but the last gets
`Math.round(percentage * totalBuildings)`, the last gets
`totalBuildings - assignedBuildings`. -/
def assignCounts : List (String × ℚ) → ℤ → ℤ → List (String × ℤ)
  | [], _, _ => []
  | [p], n, assigned => [(p.1, n - assigned)]
  | p :: q :: rest, n, assigned =>
    (p.1, jsRound (p.2 * n)) :: assignCounts (q :: rest) n (assigned + jsRound (p.2 * n))

/-- `BuildingPredictorFixed.distributeBuildingsFromPercentages` (lines
1144-1174): sort by descending percentage, round all but the last class, give
the last class the remainder, then clamp every negative count to `0`. -/
def distributeBuildingsFromPercentages (percentages : List (String × ℚ)) (totalBuildings : ℤ) :
    List (String × ℤ) :=
  (assignCounts (sortDescBy Prod.snd percentages) totalBuildings 0).map
    (fun p => (p.1, if p.2 < 0 then 0 else p.2))

/- ### script.js / part_001: estimation, city dropdown, request validation -/

/-- A city record as held in `malaysiaData` in `script.js`/part_001 (name,
population, state, region; loaded from `/api/stats` or the fallback table). -/
structure FallbackCity where
  name : String
  population : ℤ
  state : String
  region : String
deriving DecidableEq, Repr

/-- `updateCityOptions` (script.js lines 201-227, identically part_001 lines
170-201): filter `malaysiaData` by the selected region and state (each only
when different from `'all'`), then sort by descending population
(`.sort((a, b) => b[1].population - a[1].population)`).  The returned list is
the order in which the city options are appended to the dropdown. -/
def updateCityOptions (data : List FallbackCity) (selectedRegion selectedState : String) :
    List FallbackCity :=
  let f1 := if selectedRegion ≠ "all" then data.filter (fun c => c.region == selectedRegion)
            else data
  let f2 := if selectedState ≠ "all" then f1.filter (fun c => c.state == selectedState)
            else f1
  sortDescBy (fun c => c.population) f2

/-- `diffDays` as computed in `updateEstimation` (script.js lines 22-25,
part_001 lines 248-251): `Math.ceil(Math.abs(end - start) / 86400000)` on
epoch-millisecond timestamps. -/
def diffDaysJs (startMs endMs : ℤ) : ℤ :=
  ⌈(|endMs - startMs| : ℚ) / 86400000⌉

/-- The `switch (freq)` of `updateEstimation` (script.js lines 31-75, part_001
lines 256-300) computing `observationsPerBuilding` from `diffDays`.  Weekly
and monthly use `Math.ceil(diffDays / 7)` and `Math.ceil(diffDays / 30)`;
an unknown frequency falls to the `default:` branch, `diffDays * 48`. -/
def observationsPerBuilding (freq : String) (diffDays : ℤ) : ℤ :=
  match freq with
  | "5T" => diffDays * 288
  | "15T" => diffDays * 96
  | "30T" => diffDays * 48
  | "1H" => diffDays * 24
  | "2H" => diffDays * 12
  | "6H" => diffDays * 4
  | "12H" => diffDays * 2
  | "1D" => diffDays * 1
  | "1W" => ⌈(diffDays : ℚ) / 7⌉
  | "1M" => ⌈(diffDays : ℚ) / 30⌉
  | _ => diffDays * 48

/-- The validated request object built by `getFormParams` (part_001 lines
498-503): count, epoch-millisecond dates, frequency string. -/
structure FormParams where
  num_buildings : ℤ
  start_date : ℤ
  end_date : ℤ
  freq : String
deriving DecidableEq, Repr

/-- The base-parameter validation of `getFormParams` (part_001 lines 474-503),
for a request without a geographic branch (`locationMode === 'all'`; the
`filter` and `custom` branches are modelled separately below).  `none` models
`NaN` from `parseInt` on an empty field and an empty date string; the source
rejects (`return null`) when `!numBuildings || numBuildings <= 0`, when a date
is missing, and when `new Date(startDate) >= new Date(endDate)`.  The
frequency is taken as `freq || '30T'` with no membership validation. -/
def getFormParamsBase (numBuildings startMs endMs : Option ℤ) (freq : String) :
    Option FormParams :=
  match numBuildings with
  | none => none
  | some n =>
    if n ≤ 0 then none
    else
      match startMs, endMs with
      | some s, some e =>
        if s ≥ e then none
        else some ⟨n, s, e, if freq = "" then "30T" else freq⟩
      | _, _ => none

/-- JS `parseFloat(field) || default` (part_001 lines 536-537): `none` (`NaN`)
and `0` are falsy and give the default; any other parsed number passes
through unchanged. -/
def jsNumOr (v : Option ℚ) (d : ℚ) : ℚ :=
  match v with
  | none => d
  | some x => if x = 0 then d else x

/-- JS `parseInt(field) || default` (part_001 line 535). -/
def jsIntOr (v : Option ℤ) (d : ℤ) : ℤ :=
  match v with
  | none => d
  | some x => if x = 0 then d else x

/-- The `custom_location` object of `getFormParams` (part_001 lines 531-538). -/
structure CustomLocation where
  name : String
  state : String
  region : String
  population : ℤ
  latitude : ℚ
  longitude : ℚ
deriving DecidableEq, Repr

/-- Outcome of the `locationMode === 'custom'` branch of `getFormParams`
(part_001 lines 522-543): a `custom_location` is attached, or no location is
attached (all custom fields blank), or the whole request is rejected
(`return null`). -/
inductive CustomOutcome where
  | withLocation (loc : CustomLocation)
  | noLocation
  | rejected
deriving DecidableEq, Repr

/-- The `locationMode === 'custom'` branch of `getFormParams` (part_001 lines
522-543, identically script.js lines 362-384).  `city`, `state`, `region`,
`pop` are the raw field strings (JS truthiness = non-empty); `popVal`, `lat`,
`lon` are their `parseInt`/`parseFloat` results.  When the four required
fields are non-empty the location is accepted with
`latitude: parseFloat(customLat) || 3.1390` and
`longitude: parseFloat(customLon) || 101.6869` — no range check of any kind;
when only some of `city`, `state`, `pop` are filled the request is rejected. -/
def customLocationParams (city state region pop : String) (popVal : Option ℤ)
    (lat lon : Option ℚ) : CustomOutcome :=
  if city ≠ "" ∧ state ≠ "" ∧ region ≠ "" ∧ pop ≠ "" then
    .withLocation ⟨city, state, region, jsIntOr popVal 100000,
                   jsNumOr lat 3.1390, jsNumOr lon 101.6869⟩
  else if city ≠ "" ∨ state ≠ "" ∨ pop ≠ "" then
    .rejected
  else
    .noLocation

/- ### Spec-side comparison definitions (refinement targets) -/

/-- Modelled from the spec: the exact calendar count of ticks implied by
`(end_date - start_date)` and a fixed frequency step, under the
inclusive-start / exclusive-end convention — the number of multiples of
`stepMinutes` in `[0, rangeMinutes)`, which is `⌈rangeMinutes / stepMinutes⌉`. -/
def specExpectedTicks (stepMinutes rangeMinutes : ℤ) : ℤ :=
  ⌈(rangeMinutes : ℚ) / (stepMinutes : ℚ)⌉

/-- Advance a (year, month) pair by `k` calendar months (months are 1-based). -/
def addMonths (y m : ℤ) (k : ℕ) : ℤ × ℤ :=
  (y + (m - 1 + k) / 12, (m - 1 + k) % 12 + 1)

/-- Strict lexicographic order on (year, month) pairs. -/
def ymBefore (a b : ℤ × ℤ) : Bool :=
  a.1 < b.1 || (a.1 = b.1 && a.2 < b.2)

/-- Modelled from the spec: the exact calendar count of monthly ticks from the
first of month `(sy, sm)` inclusive to the first of month `(ey, em)` exclusive
— the number of `k ≥ 0` with `addMonths sy sm k` before `(ey, em)` (bounded by
ten years, ample for the concrete ranges considered). -/
def specMonthlyTicks (sy sm ey em : ℤ) : ℕ :=
  ((List.range 120).filter (fun k => ymBefore (addMonths sy sm k) (ey, em))).length

/- ### Helper lemmas -/

/-- Membership in an `insertDescBy` result. -/
theorem mem_insertDescBy {α β : Type} [LinearOrder β] (key : α → β) (x a : α) (l : List α) :
    a ∈ insertDescBy key x l ↔ a = x ∨ a ∈ l := by
  induction l with
  | nil => simp [insertDescBy]
  | cons y ys ih =>
    by_cases h : key y ≤ key x
    · simp [insertDescBy, h]
    · simp only [insertDescBy, if_neg h, List.mem_cons, ih]
      tauto

/-- Inserting preserves the descending-key pairwise property. -/
theorem pairwise_insertDescBy {α β : Type} [LinearOrder β] (key : α → β) (x : α) (l : List α)
    (hl : l.Pairwise (fun a b => key b ≤ key a)) :
    (insertDescBy key x l).Pairwise (fun a b => key b ≤ key a) := by
  induction l with
  | nil => simp [insertDescBy]
  | cons y ys ih =>
    rcases List.pairwise_cons.mp hl with ⟨hy, hys⟩
    by_cases h : key y ≤ key x
    · rw [insertDescBy, if_pos h]
      refine List.pairwise_cons.mpr ⟨?_, hl⟩
      intro b hb
      rcases List.mem_cons.mp hb with rfl | hb
      · exact h
      · exact le_trans (hy b hb) h
    · rw [insertDescBy, if_neg h]
      refine List.pairwise_cons.mpr ⟨?_, ih hys⟩
      intro b hb
      rcases (mem_insertDescBy key x b ys).mp hb with rfl | hb
      · exact le_of_lt (lt_of_not_le h)
      · exact hy b hb

/-- `sortDescBy` produces a list pairwise sorted by descending key. -/
theorem pairwise_sortDescBy {α β : Type} [LinearOrder β] (key : α → β) (l : List α) :
    (sortDescBy key l).Pairwise (fun a b => key b ≤ key a) := by
  induction l with
  | nil => simp [sortDescBy]
  | cons x xs ih => exact pairwise_insertDescBy key x (sortDescBy key xs) ih

/-- `insertDescBy` never produces the empty list. -/
theorem insertDescBy_ne_nil {α β : Type} [LinearOrder β] (key : α → β) (x : α) (l : List α) :
    insertDescBy key x l ≠ [] := by
  cases l with
  | nil => simp [insertDescBy]
  | cons y ys =>
    by_cases h : key y ≤ key x <;> simp [insertDescBy, h]

/-- `sortDescBy` of a non-empty list is non-empty. -/
theorem sortDescBy_ne_nil {α β : Type} [LinearOrder β] (key : α → β) (l : List α) (h : l ≠ []) :
    sortDescBy key l ≠ [] := by
  cases l with
  | nil => exact absurd rfl h
  | cons x xs => exact insertDescBy_ne_nil key x (sortDescBy key xs)

/-- On any non-empty class list, the counts produced by the assignment loop
(before clamping) sum to exactly `n - assigned`: the last class absorbs the
remainder. -/
theorem assignCounts_sum (l : List (String × ℚ)) (n : ℤ) :
    ∀ a : ℤ, l ≠ [] → ((assignCounts l n a).map Prod.snd).sum = n - a := by
  induction l with
  | nil => intro a h; exact absurd rfl h
  | cons p rest ih =>
    intro a _
    cases rest with
    | nil => simp [assignCounts]
    | cons q rest2 =>
      have h2 : ((assignCounts (q :: rest2) n (a + jsRound (p.2 * n))).map Prod.snd).sum
          = n - (a + jsRound (p.2 * n)) := ih (a + jsRound (p.2 * n)) (by simp)
      simp only [assignCounts, List.map_cons, List.sum_cons, h2]
      ring

/- ### Claim C2: tier weight sums -/

/-- C2 counterexample: the claim "the building-class weights in each tier's
fixed weight table sum to 1.0 within floating tolerance (1e-6)" is false: the
`metropolis` table of `BuildingPredictorFixed.defaultRatios` sums to exactly
1.067, which differs from 1 by far more than 1e-6. -/
theorem C2_counterexample :
    (drMetropolis.map Prod.snd).sum = 1067/1000 ∧
    ¬ |(drMetropolis.map Prod.snd).sum - 1| ≤ 1/1000000 := by
  have h : (drMetropolis.map Prod.snd).sum = 1067/1000 := by norm_num [drMetropolis]
  refine ⟨h, ?_⟩
  rw [h]
  have habs : |(1067 : ℚ)/1000 - 1| = 67/1000 := by
    rw [show (1067 : ℚ)/1000 - 1 = 67/1000 by norm_num, abs_of_nonneg (by norm_num)]
  rw [habs]
  norm_num

/-- C2 (amended): for every tier present in either fixed weight table
(`cityTypeRatios` of part_000 and `defaultRatios` of
interface_auto_buildings.js), the class weights sum not to 1.0 but to a value
strictly greater than 1, between 1.015 and 1.112; moreover the part_000 table
has no `industrial_city` tier at all. -/
theorem C2_tier_weight_sums :
    (∀ t ∈ cityTypeRatios ++ defaultRatios,
      203/200 ≤ (t.2.map Prod.snd).sum ∧ (t.2.map Prod.snd).sum ≤ 139/125) ∧
    "industrial_city" ∉ cityTypeRatios.map Prod.fst := by
  constructor
  · intro t ht
    simp only [cityTypeRatios, defaultRatios, List.cons_append, List.nil_append,
      List.mem_cons, List.not_mem_nil, or_false] at ht
    rcases ht with rfl | rfl | rfl | rfl | rfl | rfl | rfl | rfl | rfl | rfl | rfl <;>
      constructor <;>
      norm_num [ctrMetropolis, ctrMajorCity, ctrMediumCity, ctrSmallCity,
        ctrTouristDestination, drMetropolis, drMajorCity, drMediumCity, drSmallCity,
        drTouristDestination, drIndustrialCity]
  · decide

/-- C2 witness: the bound of `C2_tier_weight_sums` instantiated at the
`metropolis` entry of `defaultRatios`. -/
theorem C2_witness :
    203/200 ≤ (drMetropolis.map Prod.snd).sum ∧ (drMetropolis.map Prod.snd).sum ≤ 139/125 :=
  C2_tier_weight_sums.1 ("metropolis", drMetropolis) (by simp [cityTypeRatios, defaultRatios])

/- ### Claim C8: city options sorted by descending population -/

/-- C8: for every data set and every region/state filter, the city sequence
produced by `updateCityOptions` is ordered by descending population (pairwise,
ties aside): sampling over it is deterministic given the data. -/
theorem C8_city_options_sorted_desc (data : List FallbackCity) (region state : String) :
    (updateCityOptions data region state).Pairwise (fun a b => b.population ≤ a.population) := by
  simp only [updateCityOptions]
  exact pairwise_sortDescBy (fun c : FallbackCity => c.population) _

/- ### Claim C10: determineCityType is total with four possible results -/

/-- C10: both versions of `determineCityType` are total and return one of
`metropolis`, `major_city`, `medium_city`, `small_city`; neither ever returns
`tourist_destination` or `industrial_city`, so a custom location is never
assigned those tiers' weight tables, whatever its population. -/
theorem C10_determineCityType_total (population : ℤ) :
    determineCityType population ∈
      (["metropolis", "major_city", "medium_city", "small_city"] : List String) ∧
    determineCityTypeFixed population ∈
      (["metropolis", "major_city", "medium_city", "small_city"] : List String) ∧
    determineCityType population ≠ "tourist_destination" ∧
    determineCityType population ≠ "industrial_city" ∧
    determineCityTypeFixed population ≠ "tourist_destination" ∧
    determineCityTypeFixed population ≠ "industrial_city" := by
  unfold determineCityType determineCityTypeFixed
  split_ifs <;> refine ⟨by decide, by decide, by decide, by decide, by decide, by decide⟩

/- ### Claim C1: building counts sum to exactly num_buildings -/

/-- C1 counterexample: the claim that the distributed per-class counts always
sum to exactly `num_buildings` is false.  With the repository's own
`metropolis` percentage table (what `calculatePrediction` passes for any
metropolis-tier location not in `referenceData`) and `num_buildings = 1000`,
the rounded counts of the eleven largest classes already sum to 1065, the
last class (`Hospital`) is assigned the negative remainder `-65` which the
final loop clamps to `0`, and the returned counts sum to 1065, not 1000. -/
theorem C1_counterexample :
    ((distributeBuildingsFromPercentages drMetropolis 1000).map Prod.snd).sum = 1065 ∧
    (1065 : ℤ) ≠ 1000 := by
  constructor
  · norm_num [distributeBuildingsFromPercentages, drMetropolis, sortDescBy, insertDescBy,
      assignCounts, jsRound]
  · decide

/-- C1 (amended): the counts returned by `distributeBuildingsFromPercentages`
sum to exactly `totalBuildings` for every non-empty class-percentage list
provided the clamping loop never fires, i.e. provided every count assigned
before clamping (in particular the remainder given to the smallest class) is
non-negative; when the remainder is negative it is clamped to zero and the
total exceeds `totalBuildings`. -/
theorem C1_sum_exact_when_no_clamp (percentages : List (String × ℚ)) (totalBuildings : ℤ)
    (hne : percentages ≠ [])
    (hpos : ∀ c ∈ assignCounts (sortDescBy Prod.snd percentages) totalBuildings 0, 0 ≤ c.2) :
    ((distributeBuildingsFromPercentages percentages totalBuildings).map Prod.snd).sum
      = totalBuildings := by
  unfold distributeBuildingsFromPercentages
  rw [List.map_map]
  have hmap : (assignCounts (sortDescBy Prod.snd percentages) totalBuildings 0).map
      (Prod.snd ∘ fun p => (p.1, if p.2 < 0 then 0 else p.2))
      = (assignCounts (sortDescBy Prod.snd percentages) totalBuildings 0).map Prod.snd := by
    apply List.map_congr_left
    intro c hc
    simp only [Function.comp_apply]
    rw [if_neg (not_lt.mpr (hpos c hc))]
  rw [hmap, assignCounts_sum _ totalBuildings 0 (sortDescBy_ne_nil _ _ hne)]
  omega

/-- C1 witness: `C1_sum_exact_when_no_clamp` at the two-class split
`{A: 50%, B: 50%}` with 4 buildings: counts are `[2, 2]`, summing to 4. -/
theorem C1_witness :
    ((distributeBuildingsFromPercentages [("A", 1/2), ("B", 1/2)] 4).map Prod.snd).sum = 4 := by
  apply C1_sum_exact_when_no_clamp
  · simp
  · intro c hc
    norm_num [sortDescBy, insertDescBy, assignCounts, jsRound] at hc
    rcases hc with rfl | rfl <;> norm_num

/- ### Claim C9: per-class counts are never negative -/

/-- C9: every per-class count returned by `distributeBuildingsFromPercentages`
is non-negative, for every class-percentage list and every total: the final
loop clamps any negative count (the remainder handed to the last class) to
zero. -/
theorem C9_counts_nonneg (percentages : List (String × ℚ)) (totalBuildings : ℤ) :
    ∀ p ∈ distributeBuildingsFromPercentages percentages totalBuildings, 0 ≤ p.2 := by
  intro p hp
  unfold distributeBuildingsFromPercentages at hp
  rcases List.mem_map.mp hp with ⟨q, _, rfl⟩
  dsimp only
  split_ifs with h
  · exact le_refl 0
  · exact not_lt.mp h

/-- C9 witness: with the single-class list `{A: 100%}` and a negative total
`-5`, the pre-clamp remainder is `-5` and the returned count is clamped to
`0`, which is non-negative by `C9_counts_nonneg`. -/
theorem C9_witness :
    (("A", (0 : ℤ)) ∈ distributeBuildingsFromPercentages [("A", 1)] (-5)) ∧
    0 ≤ (("A", (0 : ℤ)) : String × ℤ).2 := by
  have hmem : ("A", (0 : ℤ)) ∈ distributeBuildingsFromPercentages [("A", 1)] (-5) := by
    norm_num [distributeBuildingsFromPercentages, sortDescBy, insertDescBy, assignCounts, jsRound]
  exact ⟨hmem, C9_counts_nonneg [("A", 1)] (-5) ("A", 0) hmem⟩

/- ### Claim C3: zero-candidate filter -/

/-- C3 counterexample: the claim that a filter resolving to zero candidate
locations makes the operation fail is false.  The filter
(region `Northern`, minimum population 2,000,000) matches no city, yet
`getFilteredLocationParams` returns the full 18-city Malaysia set in mode
`all` — a silent fallback, not a failure. -/
theorem C3_counterexample :
    getFilteredLocationParams "Northern" "all" "all" 2000000 none = getAllMalaysiaParams ∧
    (getFilteredLocationParams "Northern" "all" "all" 2000000 none).mode = "all" ∧
    (getFilteredLocationParams "Northern" "all" "all" 2000000 none).cities.length = 18 := by
  refine ⟨by decide, by decide, by decide⟩

/-- C3 (amended): whenever the location filter of
`getFilteredLocationParams` matches zero candidate locations, the function
does not fail: it silently falls back to `getAllMalaysiaParams`, the full
Malaysia location set. -/
theorem C3_empty_filter_falls_back (region state city : String) (popMin : ℤ)
    (popMax : Option ℤ)
    (h : malaysiaLocationsFixed.filter (cityMatches region city popMin popMax) = []) :
    getFilteredLocationParams region state city popMin popMax = getAllMalaysiaParams := by
  unfold getFilteredLocationParams
  simp [h]

/-- C3 witness: `C3_empty_filter_falls_back` at the concrete zero-candidate
filter of the counterexample. -/
theorem C3_witness :
    getFilteredLocationParams "Northern" "filterState" "all" 2000000 none
      = getAllMalaysiaParams :=
  C3_empty_filter_falls_back "Northern" "filterState" "all" 2000000 none (by decide)

/- ### Claim C4: custom-location coordinate validation -/

/-- C4 counterexample: the claim that a CustomLocation with latitude 200 is
rejected is false.  With all four required fields filled and `customLat`
parsing to `200`, `getFormParams` attaches the custom location with
`latitude = 200` unchanged — the out-of-range coordinate is accepted, not
rejected. -/
theorem C4_counterexample :
    customLocationParams "Test City" "Selangor" "Central" "150000" (some 150000)
        (some 200) (some 101) =
      .withLocation ⟨"Test City", "Selangor", "Central", 150000, 200, 101⟩ := by
  unfold customLocationParams
  rw [if_pos ⟨by decide, by decide, by decide, by decide⟩]
  norm_num [jsIntOr, jsNumOr]

/-- C4 (amended): `getFormParams` performs no coordinate validation at all:
whenever the four required fields (city, state, region, population) are
non-empty, the custom location is accepted with
`latitude = parseFloat(customLat) || 3.1390` and
`longitude = parseFloat(customLon) || 101.6869` — an out-of-range value such
as latitude 200 passes through unchanged, and a non-numeric (or zero)
coordinate is silently replaced by the Kuala Lumpur default. -/
theorem C4_no_coordinate_validation (city state region pop : String)
    (popVal : Option ℤ) (lat lon : Option ℚ)
    (hc : city ≠ "") (hs : state ≠ "") (hr : region ≠ "") (hp : pop ≠ "") :
    customLocationParams city state region pop popVal lat lon =
      .withLocation ⟨city, state, region, jsIntOr popVal 100000,
                     jsNumOr lat 3.1390, jsNumOr lon 101.6869⟩ := by
  unfold customLocationParams
  rw [if_pos ⟨hc, hs, hr, hp⟩]

/-- C4 witness: `C4_no_coordinate_validation` with a missing (`NaN`) latitude
and longitude: the location is accepted with the silent Kuala Lumpur default
coordinates `(3.1390, 101.6869)`. -/
theorem C4_witness :
    customLocationParams "Kampung Baru" "Perak" "Northern" "80000" (some 80000) none none =
      .withLocation ⟨"Kampung Baru", "Perak", "Northern", 80000, 3.1390, 101.6869⟩ := by
  rw [C4_no_coordinate_validation "Kampung Baru" "Perak" "Northern" "80000" (some 80000)
    none none (by decide) (by decide) (by decide) (by decide)]
  norm_num [jsIntOr, jsNumOr]

/- ### Claims C5 and C6: request validation -/

/-- C5 counterexample: the claim that an unsupported frequency is rejected
(and not silently replaced by a default) is false.  `getFormParams` accepts
the unsupported frequency `"7H"` unchanged, and silently replaces an empty
frequency with the default `"30T"`. -/
theorem C5_counterexample :
    getFormParamsBase (some 5) (some 0) (some 86400000) "7H"
      = some ⟨5, 0, 86400000, "7H"⟩ ∧
    getFormParamsBase (some 5) (some 0) (some 86400000) ""
      = some ⟨5, 0, 86400000, "30T"⟩ := by
  refine ⟨by decide, by decide⟩

/-- C5 (amended): `getFormParams` does reject `end_date ≤ start_date`
(returning null), but performs no frequency validation: for any valid count
and date order it returns the request with `freq || '30T'` — an empty
frequency silently becomes the default `"30T"`, and any other string,
supported or not, is passed through unchanged. -/
theorem C5_dates_checked_freq_not (n s e : ℤ) (f : String) :
    (s ≥ e → getFormParamsBase (some n) (some s) (some e) f = none) ∧
    (0 < n → s < e →
      getFormParamsBase (some n) (some s) (some e) f
        = some ⟨n, s, e, if f = "" then "30T" else f⟩) := by
  constructor
  · intro hse
    simp only [getFormParamsBase]
    by_cases hn : n ≤ 0
    · rw [if_pos hn]
    · rw [if_neg hn, if_pos hse]
  · intro hn hse
    simp only [getFormParamsBase]
    rw [if_neg (by omega), if_neg (by omega)]

/-- C5 witness: `C5_dates_checked_freq_not` at a reversed date range (the
request is rejected) and at a valid range with the unsupported frequency
`"XX"` (the request is accepted with `freq = "XX"`). -/
theorem C5_witness :
    getFormParamsBase (some 10) (some 1000) (some 1000) "1H" = none ∧
    getFormParamsBase (some 10) (some 0) (some 1000) "XX" = some ⟨10, 0, 1000, "XX"⟩ := by
  constructor
  · exact (C5_dates_checked_freq_not 10 1000 1000 "1H").1 (by omega)
  · have h := (C5_dates_checked_freq_not 10 0 1000 "XX").2 (by omega) (by omega)
    simpa using h

/-- C6: a generation request with `num_buildings < 1` (and likewise a missing
or non-numeric count, `parseInt` giving `NaN`) is rejected by `getFormParams`
— it returns null, so no request is sent and no buildings or series are
produced. -/
theorem C6_rejects_nonpositive_count (numBuildings startMs endMs : Option ℤ) (f : String)
    (h : numBuildings = none ∨ ∃ n, numBuildings = some n ∧ n < 1) :
    getFormParamsBase numBuildings startMs endMs f = none := by
  rcases h with rfl | ⟨n, rfl, hn⟩
  · rfl
  · simp only [getFormParamsBase]
    rw [if_pos (by omega)]

/-- C6 witness: `C6_rejects_nonpositive_count` at `num_buildings = 0` with an
otherwise valid request (one day of January 2024, hourly). -/
theorem C6_witness :
    getFormParamsBase (some 0) (some 1704067200000) (some 1704153600000) "1H" = none :=
  C6_rejects_nonpositive_count (some 0) (some 1704067200000) (some 1704153600000) "1H"
    (Or.inr ⟨0, rfl, by omega⟩)

/- ### Claim C7: observation counts per building -/

/-- For a step of `m` minutes with `m * k = 1440` (k steps per day), the
spec's exclusive-end tick count over `D` whole days is exactly `k * D`. -/
theorem specTicks_exact (m k D : ℤ) (hm : m ≠ 0) (hk : m * k = 1440) :
    specExpectedTicks m (1440 * D) = k * D := by
  unfold specExpectedTicks
  have hm' : (m : ℚ) ≠ 0 := Int.cast_ne_zero.mpr hm
  have hkq : (m : ℚ) * (k : ℚ) = 1440 := by exact_mod_cast hk
  have h : ((1440 * D : ℤ) : ℚ) / (m : ℚ) = ((k * D : ℤ) : ℚ) := by
    rw [div_eq_iff hm']
    push_cast
    linear_combination -D * hkq
  rw [h, Int.ceil_intCast]

/-- C7 counterexample: the claim that the point count matches the exact
calendar count for every supported frequency, under one convention applied
consistently, is false.  One whole day at hourly frequency yields 24 points,
fixing the inclusive-start/exclusive-end convention; but for the exact
one-calendar-month range 2024-01-01 to 2024-02-01 (31 days, epoch
milliseconds shown), the code computes `Math.ceil(31 / 30) = 2` monthly
points where the calendar count under that same convention is 1. -/
theorem C7_counterexample :
    diffDaysJs 1704067200000 1706745600000 = 31 ∧
    observationsPerBuilding "1M" 31 = 2 ∧
    specMonthlyTicks 2024 1 2024 2 = 1 ∧
    observationsPerBuilding "1H" 1 = 24 ∧
    specExpectedTicks 60 1440 = 24 ∧
    (2 : ℤ) ≠ 1 := by
  refine ⟨by norm_num [diffDaysJs], ?_, by decide, by norm_num [observationsPerBuilding],
    by norm_num [specExpectedTicks], by decide⟩
  show ⌈(31 : ℚ) / 30⌉ = 2
  rw [Int.ceil_eq_iff]
  norm_num

/-- C7 (amended): for every whole-day range `D` and each of the nine
fixed-step frequencies (5T, 15T, 30T, 1H, 2H, 6H, 12H, 1D, 1W) the
per-building observation count of `updateEstimation` equals the exact
exclusive-end calendar count implied by the range and the step; the monthly
frequency instead approximates a month as 30 days, computing
`Math.ceil(D / 30)`, which can disagree with the calendar-month count. -/
theorem C7_counts_match_except_monthly (D : ℤ) :
    observationsPerBuilding "5T" D = specExpectedTicks 5 (1440 * D) ∧
    observationsPerBuilding "15T" D = specExpectedTicks 15 (1440 * D) ∧
    observationsPerBuilding "30T" D = specExpectedTicks 30 (1440 * D) ∧
    observationsPerBuilding "1H" D = specExpectedTicks 60 (1440 * D) ∧
    observationsPerBuilding "2H" D = specExpectedTicks 120 (1440 * D) ∧
    observationsPerBuilding "6H" D = specExpectedTicks 360 (1440 * D) ∧
    observationsPerBuilding "12H" D = specExpectedTicks 720 (1440 * D) ∧
    observationsPerBuilding "1D" D = specExpectedTicks 1440 (1440 * D) ∧
    observationsPerBuilding "1W" D = specExpectedTicks 10080 (1440 * D) ∧
    observationsPerBuilding "1M" D = ⌈(D : ℚ) / 30⌉ := by
  refine ⟨?_, ?_, ?_, ?_, ?_, ?_, ?_, ?_, ?_, rfl⟩
  · rw [specTicks_exact 5 288 D (by norm_num) (by norm_num)]
    show D * 288 = 288 * D
    ring
  · rw [specTicks_exact 15 96 D (by norm_num) (by norm_num)]
    show D * 96 = 96 * D
    ring
  · rw [specTicks_exact 30 48 D (by norm_num) (by norm_num)]
    show D * 48 = 48 * D
    ring
  · rw [specTicks_exact 60 24 D (by norm_num) (by norm_num)]
    show D * 24 = 24 * D
    ring
  · rw [specTicks_exact 120 12 D (by norm_num) (by norm_num)]
    show D * 12 = 12 * D
    ring
  · rw [specTicks_exact 360 4 D (by norm_num) (by norm_num)]
    show D * 4 = 4 * D
    ring
  · rw [specTicks_exact 720 2 D (by norm_num) (by norm_num)]
    show D * 2 = 2 * D
    ring
  · rw [specTicks_exact 1440 1 D (by norm_num) (by norm_num)]
    show D * 1 = 1 * D
    ring
  · unfold specExpectedTicks
    have h : ((1440 * D : ℤ) : ℚ) / ((10080 : ℤ) : ℚ) = (D : ℚ) / 7 := by
      rw [div_eq_div_iff (by norm_num) (by norm_num)]
      push_cast
      ring
    rw [h]
    rfl
